import Mathlib

/-!
Verification development for the gocardless-rs repository (an unofficial
Rust client for the GoCardless Bank Account Data API).

The development shallowly embeds the two relevant layers:

* the data model of `src/model.rs`: plain records together with the
  deserialization (and, where relevant, serialization) behaviour that the
  serde derive macros give them, modelled over an explicit JSON value type;
* the client of `src/client.rs`: each operation is embedded as a function
  from the client state and an abstract HTTP outcome (transport failure or
  a response with a status code and a body) to the request it issues and
  the result it returns.

Machine integers (`i32`/`i64` fields) are modelled as `Int`; no arithmetic
is performed on them anywhere in the source, so overflow is irrelevant.
-/

namespace GoCardless

/-- JSON values as serde_json models them. Numbers are restricted to
integers, which covers every numeric field of this data model (the decimal
amount fields are strings on the wire and stay strings in the model). -/
inductive Json where
  | null : Json
  | bool : Bool → Json
  | num : Int → Json
  | str : String → Json
  | arr : List Json → Json
  | obj : List (String × Json) → Json

/-- Field lookup in a JSON object; `none` on non-objects and absent keys. -/
def Json.getField : Json → String → Option Json
  | .obj fs, k => fs.lookup k
  | _, _ => none

/-- Decode a JSON string (serde `String`). -/
def decodeString : Json → Except String String
  | .str s => .ok s
  | _ => .error "invalid type, expected a string"

/-- Decode a JSON integer (serde `i32` / `i64`). -/
def decodeInt : Json → Except String Int
  | .num n => .ok n
  | _ => .error "invalid type, expected an integer"

/-- Decode a JSON boolean (serde `bool`). -/
def decodeBool : Json → Except String Bool
  | .bool b => .ok b
  | _ => .error "invalid type, expected a boolean"

/-- Decode a JSON array elementwise (serde `Vec<T>`). -/
def decodeList (d : Json → Except String α) : Json → Except String (List α)
  | .arr xs => xs.mapM d
  | _ => .error "invalid type, expected an array"

/-- A required struct field: serde's derived behaviour for a plain field —
absent means a decode error. -/
def reqField (j : Json) (k : String) (d : Json → Except String α) :
    Except String α :=
  match j.getField k with
  | some v => d v
  | none => .error ("missing field " ++ k)

/-- An `Option` struct field: serde's derived behaviour for `Option<T>` —
absent or `null` means `none`, anything else is decoded. -/
def optField (j : Json) (k : String) (d : Json → Except String α) :
    Except String (Option α) :=
  match j.getField k with
  | some .null => .ok none
  | some v => (d v).map some
  | none => .ok none

/-- A field carrying the serde `default` attribute: absent means the
default value; a present value (even `null`) is decoded. -/
def defField (j : Json) (k : String) (dflt : α) (d : Json → Except String α) :
    Except String α :=
  match j.getField k with
  | some v => d v
  | none => .ok dflt

/-! Status enumerations of `src/model.rs`. Each is a serde unit-variant
enum whose variants carry an explicit rename, so on the wire it is exactly
the renamed string. The derives give no fallback variant and no `other`
attribute, so any string outside the table is a decode error. -/

/-- RequisitionStatus from `src/model.rs` (variants renamed to the
two-letter codes CR, GC, UA, RJ, SA, GA, LN, EX). -/
inductive RequisitionStatus where
  | Created : RequisitionStatus
  | GivingConsent : RequisitionStatus
  | UndergoingAuthentication : RequisitionStatus
  | Rejected : RequisitionStatus
  | SelectingAccounts : RequisitionStatus
  | GrantingAccess : RequisitionStatus
  | Linked : RequisitionStatus
  | Expired : RequisitionStatus
deriving Repr, DecidableEq

/-- Wire codes of RequisitionStatus, in source order. -/
def RequisitionStatus.codes : List (String × RequisitionStatus) :=
  [("CR", .Created), ("GC", .GivingConsent), ("UA", .UndergoingAuthentication),
   ("RJ", .Rejected), ("SA", .SelectingAccounts), ("GA", .GrantingAccess),
   ("LN", .Linked), ("EX", .Expired)]

/-- Wire code of a RequisitionStatus variant (derived Serialize). -/
def RequisitionStatus.code : RequisitionStatus → String
  | .Created => "CR"
  | .GivingConsent => "GC"
  | .UndergoingAuthentication => "UA"
  | .Rejected => "RJ"
  | .SelectingAccounts => "SA"
  | .GrantingAccess => "GA"
  | .Linked => "LN"
  | .Expired => "EX"

/-- Derived Serialize of RequisitionStatus: the variant's wire code as a
JSON string. -/
def RequisitionStatus.encode (s : RequisitionStatus) : Json := .str s.code

/-- Derived Deserialize of RequisitionStatus: only the eight renamed codes
are accepted; there is no fallback variant. -/
def RequisitionStatus.decode : Json → Except String RequisitionStatus
  | .str s =>
    match RequisitionStatus.codes.lookup s with
    | some v => .ok v
    | none => .error ("unknown variant " ++ s)
  | _ => .error "invalid type, expected a string"

/-- AccountStatus from `src/model.rs` (variants renamed to enabled,
deleted, blocked). -/
inductive AccountStatus where
  | Enabled : AccountStatus
  | Deleted : AccountStatus
  | Blocked : AccountStatus
deriving Repr, DecidableEq

/-- Wire codes of AccountStatus, in source order. -/
def AccountStatus.codes : List (String × AccountStatus) :=
  [("enabled", .Enabled), ("deleted", .Deleted), ("blocked", .Blocked)]

/-- Derived Deserialize of AccountStatus: only the three renamed codes are
accepted; there is no fallback variant. -/
def AccountStatus.decode : Json → Except String AccountStatus
  | .str s =>
    match AccountStatus.codes.lookup s with
    | some v => .ok v
    | none => .error ("unknown variant " ++ s)
  | _ => .error "invalid type, expected a string"

/-- AccountUsage from `src/model.rs` (variants renamed to PRIV, ORGA). -/
inductive AccountUsage where
  | Private : AccountUsage
  | Professional : AccountUsage
deriving Repr, DecidableEq

/-- Wire codes of AccountUsage, in source order. -/
def AccountUsage.codes : List (String × AccountUsage) :=
  [("PRIV", .Private), ("ORGA", .Professional)]

/-- Derived Deserialize of AccountUsage: only the two renamed codes are
accepted; there is no fallback variant. -/
def AccountUsage.decode : Json → Except String AccountUsage
  | .str s =>
    match AccountUsage.codes.lookup s with
    | some v => .ok v
    | none => .error ("unknown variant " ++ s)
  | _ => .error "invalid type, expected a string"

/-! Record types of `src/model.rs` with their derived Deserialize
behaviour. All carry the serde rename_all camelCase container attribute;
fields with an explicit rename keep the explicit name instead. Unknown
extra fields are ignored (serde's default), so the decoders below read
only the declared keys. -/

/-- CreateTokenResponse from `src/model.rs`. Wire keys: access,
access_expires (explicit rename), refresh, refresh_expires (explicit
rename); all fields required. -/
structure CreateTokenResponse where
  access : String
  access_expires : Int
  refresh : String
  refresh_expires : Int
deriving Repr, DecidableEq

/-- Derived Deserialize of CreateTokenResponse. -/
def CreateTokenResponse.decode : Json → Except String CreateTokenResponse
  | .obj fs => do
    let access ← reqField (.obj fs) "access" decodeString
    let access_expires ← reqField (.obj fs) "access_expires" decodeInt
    let refresh ← reqField (.obj fs) "refresh" decodeString
    let refresh_expires ← reqField (.obj fs) "refresh_expires" decodeInt
    pure ⟨access, access_expires, refresh, refresh_expires⟩
  | _ => .error "invalid type, expected struct CreateTokenResponse"

/-- Institution from `src/model.rs`. Wire keys: id, name, bic,
transaction_total_days (explicit rename), countries, logo; all required. -/
structure Institution where
  id : String
  name : String
  bic : String
  transaction_total_days : String
  countries : List String
  logo : String
deriving Repr, DecidableEq

/-- Derived Deserialize of Institution. -/
def Institution.decode : Json → Except String Institution
  | .obj fs => do
    let id ← reqField (.obj fs) "id" decodeString
    let name ← reqField (.obj fs) "name" decodeString
    let bic ← reqField (.obj fs) "bic" decodeString
    let days ← reqField (.obj fs) "transaction_total_days" decodeString
    let countries ← reqField (.obj fs) "countries" (decodeList decodeString)
    let logo ← reqField (.obj fs) "logo" decodeString
    pure ⟨id, name, bic, days, countries, logo⟩
  | _ => .error "invalid type, expected struct Institution"

/-- EndUserAgreement from `src/model.rs`. Wire keys: id, created,
institution_id, max_historical_days, access_valid_for_days, access_scope
(the last four carry explicit renames); all required. -/
structure EndUserAgreement where
  id : String
  created : String
  institution_id : String
  max_historical_days : Int
  access_valid_for_days : Int
  access_scope : List String
deriving Repr, DecidableEq

/-- Derived Deserialize of EndUserAgreement. -/
def EndUserAgreement.decode : Json → Except String EndUserAgreement
  | .obj fs => do
    let id ← reqField (.obj fs) "id" decodeString
    let created ← reqField (.obj fs) "created" decodeString
    let iid ← reqField (.obj fs) "institution_id" decodeString
    let mhd ← reqField (.obj fs) "max_historical_days" decodeInt
    let avfd ← reqField (.obj fs) "access_valid_for_days" decodeInt
    let scope ← reqField (.obj fs) "access_scope" (decodeList decodeString)
    pure ⟨id, created, iid, mhd, avfd, scope⟩
  | _ => .error "invalid type, expected struct EndUserAgreement"

/-- Requisition from `src/model.rs`. Wire keys: id, created, redirect,
status, institution_id (explicit), agreement, reference, accounts,
user_language (explicit), link, account_selection (explicit),
redirect_immediate (explicit); all required. -/
structure Requisition where
  id : String
  created : String
  redirect : String
  status : RequisitionStatus
  institution_id : String
  agreement : String
  reference : String
  accounts : List String
  user_language : String
  link : String
  account_selection : Bool
  redirect_immediate : Bool
deriving Repr, DecidableEq

/-- Derived Deserialize of Requisition. -/
def Requisition.decode : Json → Except String Requisition
  | .obj fs => do
    let id ← reqField (.obj fs) "id" decodeString
    let created ← reqField (.obj fs) "created" decodeString
    let redirect ← reqField (.obj fs) "redirect" decodeString
    let status ← reqField (.obj fs) "status" RequisitionStatus.decode
    let iid ← reqField (.obj fs) "institution_id" decodeString
    let agreement ← reqField (.obj fs) "agreement" decodeString
    let reference ← reqField (.obj fs) "reference" decodeString
    let accounts ← reqField (.obj fs) "accounts" (decodeList decodeString)
    let lang ← reqField (.obj fs) "user_language" decodeString
    let link ← reqField (.obj fs) "link" decodeString
    let sel ← reqField (.obj fs) "account_selection" decodeBool
    let ri ← reqField (.obj fs) "redirect_immediate" decodeBool
    pure ⟨id, created, redirect, status, iid, agreement, reference,
          accounts, lang, link, sel, ri⟩
  | _ => .error "invalid type, expected struct Requisition"

/-- ListRequisitionsResponse from `src/model.rs`. Wire keys: count,
results; both required. -/
structure ListRequisitionsResponse where
  count : Int
  results : List Requisition
deriving Repr, DecidableEq

/-- Derived Deserialize of ListRequisitionsResponse. -/
def ListRequisitionsResponse.decode :
    Json → Except String ListRequisitionsResponse
  | .obj fs => do
    let count ← reqField (.obj fs) "count" decodeInt
    let results ← reqField (.obj fs) "results" (decodeList Requisition.decode)
    pure ⟨count, results⟩
  | _ => .error "invalid type, expected struct ListRequisitionsResponse"

/-- TransactionAmount from `src/model.rs`. Wire keys: amount, currency;
both required strings — the amount is a decimal string, never a number. -/
structure TransactionAmount where
  amount : String
  currency : String
deriving Repr, DecidableEq

/-- Derived Deserialize of TransactionAmount. -/
def TransactionAmount.decode : Json → Except String TransactionAmount
  | .obj fs => do
    let amount ← reqField (.obj fs) "amount" decodeString
    let currency ← reqField (.obj fs) "currency" decodeString
    pure ⟨amount, currency⟩
  | _ => .error "invalid type, expected struct TransactionAmount"

/-- Derived Serialize of TransactionAmount: both fields re-encoded as the
very strings held in the record. -/
def TransactionAmount.encode (t : TransactionAmount) : Json :=
  .obj [("amount", .str t.amount), ("currency", .str t.currency)]

/-- CreditorAccount from `src/model.rs`. Wire key: bban; required. -/
structure CreditorAccount where
  bban : String
deriving Repr, DecidableEq

/-- Derived Deserialize of CreditorAccount. -/
def CreditorAccount.decode : Json → Except String CreditorAccount
  | .obj fs => do
    let bban ← reqField (.obj fs) "bban" decodeString
    pure ⟨bban⟩
  | _ => .error "invalid type, expected struct CreditorAccount"

/-- Transaction from `src/model.rs`. Wire keys (camelCase): transactionId,
bookingDate, valueDate, bookingDateTime, valueDateTime, transactionAmount,
creditorName, remittanceInformationUnstructured,
proprietaryBankTransactionCode, internalTransactionId, debtorName,
creditorAccount. transactionId, bookingDate, bookingDateTime and
transactionAmount are plain required fields; the rest are Option fields. -/
structure Transaction where
  transaction_id : String
  booking_date : String
  value_date : Option String
  booking_date_time : String
  value_date_time : Option String
  transaction_amount : TransactionAmount
  creditor_name : Option String
  remittance_information_unstructured : Option String
  proprietary_bank_transaction_code : Option String
  internal_transaction_id : Option String
  debtor_name : Option String
  creditor_account : Option CreditorAccount
deriving Repr, DecidableEq

/-- Derived Deserialize of Transaction. -/
def Transaction.decode : Json → Except String Transaction
  | .obj fs => do
    let tid ← reqField (.obj fs) "transactionId" decodeString
    let bd ← reqField (.obj fs) "bookingDate" decodeString
    let vd ← optField (.obj fs) "valueDate" decodeString
    let bdt ← reqField (.obj fs) "bookingDateTime" decodeString
    let vdt ← optField (.obj fs) "valueDateTime" decodeString
    let amt ← reqField (.obj fs) "transactionAmount" TransactionAmount.decode
    let cn ← optField (.obj fs) "creditorName" decodeString
    let riu ← optField (.obj fs) "remittanceInformationUnstructured" decodeString
    let pbtc ← optField (.obj fs) "proprietaryBankTransactionCode" decodeString
    let itid ← optField (.obj fs) "internalTransactionId" decodeString
    let dn ← optField (.obj fs) "debtorName" decodeString
    let ca ← optField (.obj fs) "creditorAccount" CreditorAccount.decode
    pure ⟨tid, bd, vd, bdt, vdt, amt, cn, riu, pbtc, itid, dn, ca⟩
  | _ => .error "invalid type, expected struct Transaction"

/-- Transactions from `src/model.rs`. Wire keys: booked, pending. Neither
field carries the serde default attribute, so both are required. -/
structure Transactions where
  booked : List Transaction
  pending : List Transaction
deriving Repr, DecidableEq

/-- Derived Deserialize of Transactions. -/
def Transactions.decode : Json → Except String Transactions
  | .obj fs => do
    let booked ← reqField (.obj fs) "booked" (decodeList Transaction.decode)
    let pending ← reqField (.obj fs) "pending" (decodeList Transaction.decode)
    pure ⟨booked, pending⟩
  | _ => .error "invalid type, expected struct Transactions"

/-- ListTransactionsResponse from `src/model.rs`. Wire key: transactions,
carrying the serde default attribute; when absent the derived Default of
Transactions supplies empty booked and pending lists. -/
structure ListTransactionsResponse where
  transactions : Transactions
deriving Repr, DecidableEq

/-- Derived Deserialize of ListTransactionsResponse. -/
def ListTransactionsResponse.decode :
    Json → Except String ListTransactionsResponse
  | .obj fs => do
    let t ← defField (.obj fs) "transactions" ⟨[], []⟩ Transactions.decode
    pure ⟨t⟩
  | _ => .error "invalid type, expected struct ListTransactionsResponse"

/-- BalanceAmount from `src/model.rs`. Wire keys: amount, currency; both
required strings. -/
structure BalanceAmount where
  amount : String
  currency : String
deriving Repr, DecidableEq

/-- Derived Deserialize of BalanceAmount. -/
def BalanceAmount.decode : Json → Except String BalanceAmount
  | .obj fs => do
    let amount ← reqField (.obj fs) "amount" decodeString
    let currency ← reqField (.obj fs) "currency" decodeString
    pure ⟨amount, currency⟩
  | _ => .error "invalid type, expected struct BalanceAmount"

/-- Derived Serialize of BalanceAmount. -/
def BalanceAmount.encode (b : BalanceAmount) : Json :=
  .obj [("amount", .str b.amount), ("currency", .str b.currency)]

/-- Balance from `src/model.rs`. Wire keys (camelCase): balanceAmount,
balanceType, referenceDate; all required. -/
structure Balance where
  balance_amount : BalanceAmount
  balance_type : String
  reference_date : String
deriving Repr, DecidableEq

/-- Derived Deserialize of Balance. -/
def Balance.decode : Json → Except String Balance
  | .obj fs => do
    let ba ← reqField (.obj fs) "balanceAmount" BalanceAmount.decode
    let bt ← reqField (.obj fs) "balanceType" decodeString
    let rd ← reqField (.obj fs) "referenceDate" decodeString
    pure ⟨ba, bt, rd⟩
  | _ => .error "invalid type, expected struct Balance"

/-- ListBalancesResponse from `src/model.rs`. Wire key: balances, carrying
the serde default attribute; absent means the empty list. -/
structure ListBalancesResponse where
  balances : List Balance
deriving Repr, DecidableEq

/-- Derived Deserialize of ListBalancesResponse. -/
def ListBalancesResponse.decode : Json → Except String ListBalancesResponse
  | .obj fs => do
    let bs ← defField (.obj fs) "balances" [] (decodeList Balance.decode)
    pure ⟨bs⟩
  | _ => .error "invalid type, expected struct ListBalancesResponse"

/-- Account from `src/model.rs`. Wire keys (camelCase): resourceId, iban,
bban, bic, msisdn, currency, ownerName, ownerAddressUnstructured, name,
displayName, details, product, cashAccountType, status, linkedAccounts,
usage. resourceId and currency are required; every other field is an
Option field. -/
structure Account where
  resource_id : String
  iban : Option String
  bban : Option String
  bic : Option String
  msisdn : Option String
  currency : String
  owner_name : Option String
  owner_address_unstructured : Option String
  name : Option String
  display_name : Option String
  details : Option String
  product : Option String
  cash_account_type : Option String
  status : Option AccountStatus
  linked_accounts : Option String
  usage : Option AccountUsage
deriving Repr, DecidableEq

/-- Derived Deserialize of Account. -/
def Account.decode : Json → Except String Account
  | .obj fs => do
    let rid ← reqField (.obj fs) "resourceId" decodeString
    let iban ← optField (.obj fs) "iban" decodeString
    let bban ← optField (.obj fs) "bban" decodeString
    let bic ← optField (.obj fs) "bic" decodeString
    let msisdn ← optField (.obj fs) "msisdn" decodeString
    let currency ← reqField (.obj fs) "currency" decodeString
    let own ← optField (.obj fs) "ownerName" decodeString
    let oau ← optField (.obj fs) "ownerAddressUnstructured" decodeString
    let name ← optField (.obj fs) "name" decodeString
    let dn ← optField (.obj fs) "displayName" decodeString
    let det ← optField (.obj fs) "details" decodeString
    let prod ← optField (.obj fs) "product" decodeString
    let cat ← optField (.obj fs) "cashAccountType" decodeString
    let st ← optField (.obj fs) "status" AccountStatus.decode
    let la ← optField (.obj fs) "linkedAccounts" decodeString
    let us ← optField (.obj fs) "usage" AccountUsage.decode
    pure ⟨rid, iban, bban, bic, msisdn, currency, own, oau, name, dn,
          det, prod, cat, st, la, us⟩
  | _ => .error "invalid type, expected struct Account"

/-- AccountDetailsResponse from `src/model.rs`. Wire key: account, an
Option field also carrying the serde default attribute: absent or null
yields none. -/
structure AccountDetailsResponse where
  account : Option Account
deriving Repr, DecidableEq

/-- Derived Deserialize of AccountDetailsResponse. -/
def AccountDetailsResponse.decode :
    Json → Except String AccountDetailsResponse
  | .obj fs => do
    let a ← optField (.obj fs) "account" Account.decode
    pure ⟨a⟩
  | _ => .error "invalid type, expected struct AccountDetailsResponse"

/-! Client layer, embedding `src/client.rs`. Each operation is a function
of the client state, its arguments and an abstract HTTP outcome; it
returns the request the code builds together with the result the code
computes from the outcome. The request body is kept as a JSON value (the
code serializes the very same value with to_string before sending). A
data-fetching operation returns none exactly when the source would panic
on unwrapping the absent created_token. -/

/-- Endpoint constant URL_CREATE_TOKEN from `src/client.rs`. -/
def URL_CREATE_TOKEN : String :=
  "https://bankaccountdata.gocardless.com/api/v2/token/new/"

/-- Endpoint constant URL_GET_INSTITUTIONS from `src/client.rs`. -/
def URL_GET_INSTITUTIONS : String :=
  "https://bankaccountdata.gocardless.com/api/v2/institutions/?country=gb"

/-- Endpoint constant URL_CREATE_END_USER_AGREEMENT from `src/client.rs`. -/
def URL_CREATE_END_USER_AGREEMENT : String :=
  "https://bankaccountdata.gocardless.com/api/v2/agreements/enduser/"

/-- Endpoint constant URL_REQUISITIONS from `src/client.rs`. -/
def URL_REQUISITIONS : String :=
  "https://bankaccountdata.gocardless.com/api/v2/requisitions/"

/-- HTTP method of a request. -/
inductive Method where
  | GET : Method
  | POST : Method
deriving Repr, DecidableEq

/-- An outbound HTTP request as the client builds it: method, url, headers
in the order the code sets them, and the JSON body for POST requests. -/
structure Request where
  method : Method
  url : String
  headers : List (String × String)
  body : Option Json

/-- An HTTP response: the status line's code and the body. The body is
none when the body text is not valid JSON (so every attempt to parse it
fails), and some j when it parses to the JSON value j. -/
structure HttpResponse where
  status : Nat
  body : Option Json

/-- Outcome of one send: either the transport fails (network, DNS, TLS —
the reqwest send call returns Err), or a response arrives. -/
inductive HttpOutcome where
  | transportError : HttpOutcome
  | response : HttpResponse → HttpOutcome

/-- The error cases an operation of `src/client.rs` can return: every
operation has result type Result of T and a boxed error, and the boxed
error is either the transport error propagated from send, or a JSON decode
error (from the reqwest json call or serde_json from_str) carrying the
parser's message. No constructor carries an HTTP status code: the source
never inspects the status of a response. -/
inductive ClientError where
  | transport : ClientError
  | decode : String → ClientError
deriving Repr, DecidableEq

/-- The response-processing pipeline shared by every operation: propagate
a transport failure, otherwise parse the body and decode it, never looking
at the status code (the source calls neither error_for_status nor reads
status in any way). Operations that go through text plus serde_json
from_str behave identically to those calling json directly. -/
def httpJson (d : Json → Except String α) :
    HttpOutcome → Except ClientError α
  | .transportError => .error .transport
  | .response r =>
    match r.body with
    | none => .error (.decode "body is not valid JSON")
    | some j =>
      match d j with
      | .ok v => .ok v
      | .error e => .error (.decode e)

/-- Client from `src/client.rs`: the credentials and the optional minted
token. The reqwest transport handle carries no observable state and is not
modelled. -/
structure Client where
  secret_id : String
  secret_key : String
  created_token : Option CreateTokenResponse

/-- Method create_token of `src/client.rs`: POST to URL_CREATE_TOKEN with
the two secrets as the JSON body, then decode a CreateTokenResponse. The
request body is the single place the secrets are used. -/
def Client.create_token (c : Client) (h : HttpOutcome) :
    Request × Except ClientError CreateTokenResponse :=
  ({ method := .POST
     url := URL_CREATE_TOKEN
     headers := [("Accept", "application/json"),
                 ("Content-Type", "application/json")]
     body := some (.obj [("secret_id", .str c.secret_id),
                         ("secret_key", .str c.secret_key)]) },
   httpJson CreateTokenResponse.decode h)

/-- Constructor Client::new of `src/client.rs`: build the client with no
token, run create_token, and on success store the minted token; any
failure of create_token is propagated and no client value is produced. -/
def Client.new (secret_id secret_key : String) (h : HttpOutcome) :
    Except ClientError Client :=
  let c : Client := ⟨secret_id, secret_key, none⟩
  match (c.create_token h).2 with
  | .error e => .error e
  | .ok tok => .ok { c with created_token := some tok }

/-- Headers of an authenticated GET request, in source order. -/
def authGetHeaders (access : String) : List (String × String) :=
  [("Accept", "application/json"),
   ("Authorization", "Bearer " ++ access)]

/-- Headers of an authenticated POST request, in source order. -/
def authPostHeaders (access : String) : List (String × String) :=
  [("Accept", "application/json"),
   ("Content-Type", "application/json"),
   ("Authorization", "Bearer " ++ access)]

/-- Method get_institutions of `src/client.rs`: unwrap the stored token
(none models the panic), GET URL_GET_INSTITUTIONS, decode a list of
Institution. -/
def Client.get_institutions (c : Client) (h : HttpOutcome) :
    Option (Request × Except ClientError (List Institution)) :=
  match c.created_token with
  | none => none
  | some tok =>
    some ({ method := .GET
            url := URL_GET_INSTITUTIONS
            headers := authGetHeaders tok.access
            body := none },
          httpJson (decodeList Institution.decode) h)

/-- Method create_end_user_agreement of `src/client.rs`: unwrap the stored
token, POST the agreement body (institution id, caller-supplied
max_historical_days, fixed 30-day validity and fixed three-scope list) to
URL_CREATE_END_USER_AGREEMENT, read the body as text and decode an
EndUserAgreement with serde_json from_str. -/
def Client.create_end_user_agreement (c : Client)
    (institution_id : String) (max_historical_days : Int)
    (h : HttpOutcome) :
    Option (Request × Except ClientError EndUserAgreement) :=
  match c.created_token with
  | none => none
  | some tok =>
    some ({ method := .POST
            url := URL_CREATE_END_USER_AGREEMENT
            headers := authPostHeaders tok.access
            body := some (.obj
              [("institution_id", .str institution_id),
               ("max_historical_days", .num max_historical_days),
               ("access_valid_for_days", .str "30"),
               ("access_scope", .arr [.str "balances", .str "details",
                                      .str "transactions"])]) },
          httpJson EndUserAgreement.decode h)

/-- Method list_requisitions of `src/client.rs`: unwrap the stored token,
GET URL_REQUISITIONS, decode a ListRequisitionsResponse. -/
def Client.list_requisitions (c : Client) (h : HttpOutcome) :
    Option (Request × Except ClientError ListRequisitionsResponse) :=
  match c.created_token with
  | none => none
  | some tok =>
    some ({ method := .GET
            url := URL_REQUISITIONS
            headers := authGetHeaders tok.access
            body := none },
          httpJson ListRequisitionsResponse.decode h)

/-- Method create_requisition of `src/client.rs`: unwrap the stored token,
build the body from redirect, institution id and the fixed user language,
insert reference and agreement only when supplied, POST to
URL_REQUISITIONS and decode a Requisition. -/
def Client.create_requisition (c : Client)
    (redirect institution_id : String)
    (agreement_id reference : Option String) (h : HttpOutcome) :
    Option (Request × Except ClientError Requisition) :=
  match c.created_token with
  | none => none
  | some tok =>
    let base : List (String × Json) :=
      [("redirect", .str redirect),
       ("institution_id", .str institution_id),
       ("user_language", .str "EN")]
    let withRef := match reference with
      | some r => base ++ [("reference", Json.str r)]
      | none => base
    let withAgr := match agreement_id with
      | some a => withRef ++ [("agreement", Json.str a)]
      | none => withRef
    some ({ method := .POST
            url := URL_REQUISITIONS
            headers := authPostHeaders tok.access
            body := some (.obj withAgr) },
          httpJson Requisition.decode h)

/-- Method list_transactions of `src/client.rs`: unwrap the stored token,
GET the account's transactions endpoint, read the body as text and decode
a ListTransactionsResponse with serde_json from_str. -/
def Client.list_transactions (c : Client) (account_id : String)
    (h : HttpOutcome) :
    Option (Request × Except ClientError ListTransactionsResponse) :=
  match c.created_token with
  | none => none
  | some tok =>
    some ({ method := .GET
            url := "https://bankaccountdata.gocardless.com/api/v2/accounts/"
                   ++ account_id ++ "/transactions"
            headers := authGetHeaders tok.access
            body := none },
          httpJson ListTransactionsResponse.decode h)

/-- Method list_balances of `src/client.rs`: unwrap the stored token, GET
the account's balances endpoint, decode a ListBalancesResponse. -/
def Client.list_balances (c : Client) (account_id : String)
    (h : HttpOutcome) :
    Option (Request × Except ClientError ListBalancesResponse) :=
  match c.created_token with
  | none => none
  | some tok =>
    some ({ method := .GET
            url := "https://bankaccountdata.gocardless.com/api/v2/accounts/"
                   ++ account_id ++ "/balances"
            headers := authGetHeaders tok.access
            body := none },
          httpJson ListBalancesResponse.decode h)

/-- Method get_account_details of `src/client.rs`: unwrap the stored
token, GET the account's details endpoint, decode an
AccountDetailsResponse. -/
def Client.get_account_details (c : Client) (account_id : String)
    (h : HttpOutcome) :
    Option (Request × Except ClientError AccountDetailsResponse) :=
  match c.created_token with
  | none => none
  | some tok =>
    some ({ method := .GET
            url := "https://bankaccountdata.gocardless.com/api/v2/accounts/"
                   ++ account_id ++ "/details"
            headers := authGetHeaders tok.access
            body := none },
          httpJson AccountDetailsResponse.decode h)

/-! Theorems settling the claims. -/

/-- Helper: a lookup over an association list misses when the key differs
from every stored key. -/
theorem lookup_none_of_forall_ne {β : Type} (s : String) :
    ∀ (l : List (String × β)), (∀ p ∈ l, p.1 ≠ s) → l.lookup s = none
  | [], _ => rfl
  | (k, v) :: l, h => by
    have hk : (s == k) = false := by
      have : k ≠ s := h (k, v) (List.mem_cons_self _ _)
      simp only [beq_eq_false_iff_ne, ne_eq]
      exact fun e => this e.symm
    have ih := lookup_none_of_forall_ne s l
      (fun p hp => h p (List.mem_cons_of_mem _ hp))
    simp [List.lookup, hk, ih]

/-- C1 counterexample. The claim says a non-success HTTP status surfaces
as an ApiError carrying the status code, distinguishable from a decode
failure. In the source no operation inspects the status: here a 401
rejection whose JSON error body lacks a transactions key decodes, via the
defaulted transactions field, to a successful empty transactions response
— the very same value a genuine 200 with empty booked and pending lists
yields — so the caller cannot even tell the rejection from a success, let
alone receive a status-carrying error. -/
theorem C1_counterexample :
    ((⟨"id", "key", some ⟨"tok", 3600, "r", 86400⟩⟩ : Client).list_transactions
        "acc" (.response ⟨401, some (.obj [("summary", .str "Invalid token"),
          ("detail", .str "Token is invalid or expired")])⟩)
      |>.map Prod.snd) = some (.ok ⟨⟨[], []⟩⟩)
    ∧ ((⟨"id", "key", some ⟨"tok", 3600, "r", 86400⟩⟩ : Client).list_transactions
        "acc" (.response ⟨200, some (.obj [("transactions",
          .obj [("booked", .arr []), ("pending", .arr [])])])⟩)
      |>.map Prod.snd) = some (.ok ⟨⟨[], []⟩⟩) :=
  ⟨rfl, rfl⟩

/-- C1 amended. Transport failures and decode failures are distinguishable
in the returned error (distinct ClientError constructors), but there is no
ApiError: the HTTP status code never influences an operation's result —
list_transactions and create_token return identical results for identical
bodies under any two status codes — so a non-success status is processed
by decoding its body like any other response. -/
theorem C1_amended :
    (∀ (c : Client) (acc : String) (s s' : Nat) (b : Option Json),
        c.list_transactions acc (.response ⟨s, b⟩)
          = c.list_transactions acc (.response ⟨s', b⟩))
    ∧ (∀ (c : Client) (s s' : Nat) (b : Option Json),
        (c.create_token (.response ⟨s, b⟩)).2
          = (c.create_token (.response ⟨s', b⟩)).2)
    ∧ (∀ (c : Client) (acc : String),
        (c.list_transactions acc .transportError).map Prod.snd
          = c.created_token.map (fun _ => .error .transport))
    ∧ (∀ m, ClientError.transport ≠ ClientError.decode m) := by
  refine ⟨?_, ?_, ?_, ?_⟩
  · rintro ⟨sid, sk, tok⟩ acc s s' b
    cases tok <;> rfl
  · intro c s s' b
    rfl
  · rintro ⟨sid, sk, tok⟩ acc
    cases tok <;> rfl
  · intro m hm
    exact ClientError.noConfusion hm

/-- C2. The claim says no response type requires a field the spec marks
optional, naming a Transaction's booking/value date forms. The source
declares booking_date and booking_date_time as plain required fields: a
transaction body carrying every other required field but no bookingDate is
rejected with a missing-field error, while the same body with bookingDate
and bookingDateTime present decodes (all genuinely Option fields absent
defaulting to none). -/
theorem C2_booking_date_required :
    Transaction.decode (.obj [("transactionId", .str "t1"),
        ("bookingDateTime", .str "2024-01-01T00:00:00Z"),
        ("transactionAmount", .obj [("amount", .str "1.00"),
                                    ("currency", .str "GBP")])])
      = .error "missing field bookingDate"
    ∧ Transaction.decode (.obj [("transactionId", .str "t1"),
        ("bookingDate", .str "2024-01-01"),
        ("bookingDateTime", .str "2024-01-01T00:00:00Z"),
        ("transactionAmount", .obj [("amount", .str "1.00"),
                                    ("currency", .str "GBP")])])
      = .ok ⟨"t1", "2024-01-01", none, "2024-01-01T00:00:00Z", none,
             ⟨"1.00", "GBP"⟩, none, none, none, none, none, none⟩ :=
  ⟨rfl, rfl⟩

/-- C3. The claim says a transactions object lacking the pending key
decodes to an empty pending list. In the source the Transactions struct
has no serde default on its fields, so pending is required: the body
rejects with a missing-field error. -/
theorem C3_pending_required :
    ListTransactionsResponse.decode
        (.obj [("transactions", .obj [("booked", .arr [])])])
      = .error "missing field pending" :=
  rfl

/-- C4 counterexample. The claim adds that the minted access token is
non-empty; the source performs no such validation. A token endpoint
response whose access field is the empty string still yields a
successfully constructed client holding that empty access token. -/
theorem C4_counterexample :
    Client.new "sid" "sk" (.response ⟨200, some (.obj
        [("access", .str ""), ("access_expires", .num 3600),
         ("refresh", .str ""), ("refresh_expires", .num 86400)])⟩)
      = .ok ⟨"sid", "sk", some ⟨"", 3600, "", 86400⟩⟩
    ∧ (⟨"", 3600, "", 86400⟩ : CreateTokenResponse).access = "" :=
  ⟨rfl, rfl⟩

/-- C4 amended. Every client successfully returned by Client::new has its
created_token field populated (some), so the unwrap at the start of each
of the seven data-fetching operations never panics on such a client (none
models the panic); the access token itself, however, is whatever string
the server returned and may be empty. -/
theorem C4_token_populated (sid sk : String) (h : HttpOutcome) (c : Client)
    (hc : Client.new sid sk h = .ok c) :
    c.created_token.isSome = true
    ∧ ∀ (h' : HttpOutcome) (acc iid red : String) (mhd : Int)
        (agr rf : Option String),
        (c.get_institutions h').isSome = true
        ∧ (c.create_end_user_agreement iid mhd h').isSome = true
        ∧ (c.list_requisitions h').isSome = true
        ∧ (c.create_requisition red iid agr rf h').isSome = true
        ∧ (c.list_transactions acc h').isSome = true
        ∧ (c.list_balances acc h').isSome = true
        ∧ (c.get_account_details acc h').isSome = true := by
  unfold Client.new Client.create_token at hc
  cases hj : httpJson CreateTokenResponse.decode h with
  | error e => rw [hj] at hc; exact Except.noConfusion hc
  | ok tok =>
    rw [hj] at hc
    cases hc
    exact ⟨rfl, fun h' acc iid red mhd agr rf =>
      ⟨rfl, rfl, rfl, rfl, rfl, rfl, rfl⟩⟩

/-- C4 witness: a concrete successful construction, at which the amended
theorem applies. -/
theorem C4_witness :
    ((⟨"a", "b", some ⟨"tok", 3600, "rf", 86400⟩⟩ : Client).created_token).isSome
      = true :=
  (C4_token_populated "a" "b" (.response ⟨200, some (.obj
      [("access", .str "tok"), ("access_expires", .num 3600),
       ("refresh", .str "rf"), ("refresh_expires", .num 86400)])⟩)
    ⟨"a", "b", some ⟨"tok", 3600, "rf", 86400⟩⟩ rfl).1

/-- C5. Decoding the JSON string LN as a RequisitionStatus yields the
Linked variant, and each of the eight documented two-letter codes decodes
to its named variant and re-encodes to the same code. -/
theorem C5_status_roundtrip :
    RequisitionStatus.decode (.str "LN") = .ok .Linked
    ∧ RequisitionStatus.decode (.str "CR") = .ok .Created
    ∧ RequisitionStatus.encode .Created = .str "CR"
    ∧ RequisitionStatus.decode (.str "GC") = .ok .GivingConsent
    ∧ RequisitionStatus.encode .GivingConsent = .str "GC"
    ∧ RequisitionStatus.decode (.str "UA") = .ok .UndergoingAuthentication
    ∧ RequisitionStatus.encode .UndergoingAuthentication = .str "UA"
    ∧ RequisitionStatus.decode (.str "RJ") = .ok .Rejected
    ∧ RequisitionStatus.encode .Rejected = .str "RJ"
    ∧ RequisitionStatus.decode (.str "SA") = .ok .SelectingAccounts
    ∧ RequisitionStatus.encode .SelectingAccounts = .str "SA"
    ∧ RequisitionStatus.decode (.str "GA") = .ok .GrantingAccess
    ∧ RequisitionStatus.encode .GrantingAccess = .str "GA"
    ∧ RequisitionStatus.decode (.str "LN") = .ok .Linked
    ∧ RequisitionStatus.encode .Linked = .str "LN"
    ∧ RequisitionStatus.decode (.str "EX") = .ok .Expired
    ∧ RequisitionStatus.encode .Expired = .str "EX" :=
  ⟨rfl, rfl, rfl, rfl, rfl, rfl, rfl, rfl, rfl, rfl, rfl, rfl, rfl, rfl,
   rfl, rfl, rfl⟩

/-- C6 counterexample. The claim says an undocumented two-letter code
decodes to a fallback unknown-code variant. The enums have no fallback
variant: the undocumented code ZZ is rejected with a decode error by all
three status enums. -/
theorem C6_counterexample :
    RequisitionStatus.decode (.str "ZZ") = .error "unknown variant ZZ"
    ∧ AccountStatus.decode (.str "ZZ") = .error "unknown variant ZZ"
    ∧ AccountUsage.decode (.str "ZZ") = .error "unknown variant ZZ" :=
  ⟨rfl, rfl, rfl⟩

/-- C6 amended. For every string differing from every documented code,
decoding it as a RequisitionStatus, AccountStatus or AccountUsage fails
with an unknown-variant decode error rather than succeeding with a
fallback variant (none exists). -/
theorem C6_amended (s : String)
    (h1 : ∀ p ∈ RequisitionStatus.codes, p.1 ≠ s)
    (h2 : ∀ p ∈ AccountStatus.codes, p.1 ≠ s)
    (h3 : ∀ p ∈ AccountUsage.codes, p.1 ≠ s) :
    RequisitionStatus.decode (.str s) = .error ("unknown variant " ++ s)
    ∧ AccountStatus.decode (.str s) = .error ("unknown variant " ++ s)
    ∧ AccountUsage.decode (.str s) = .error ("unknown variant " ++ s) := by
  refine ⟨?_, ?_, ?_⟩
  · simp [RequisitionStatus.decode, lookup_none_of_forall_ne s _ h1]
  · simp [AccountStatus.decode, lookup_none_of_forall_ne s _ h2]
  · simp [AccountUsage.decode, lookup_none_of_forall_ne s _ h3]

/-- C6 witness: the amended theorem applied at the concrete undocumented
code QQ. -/
theorem C6_witness :
    RequisitionStatus.decode (.str "QQ") = .error "unknown variant QQ"
    ∧ AccountStatus.decode (.str "QQ") = .error "unknown variant QQ"
    ∧ AccountUsage.decode (.str "QQ") = .error "unknown variant QQ" :=
  C6_amended "QQ" (by decide) (by decide) (by decide)

/-- C7. For every decimal string s (and currency string c), decoding a
transaction amount or balance amount whose amount field is s yields a
record holding exactly the string s, and re-encoding yields exactly the
original JSON — the amount is never coerced to a numeric form. -/
theorem C7_amount_roundtrip (s c : String) :
    TransactionAmount.decode (.obj [("amount", .str s), ("currency", .str c)])
      = .ok ⟨s, c⟩
    ∧ TransactionAmount.encode ⟨s, c⟩
      = .obj [("amount", .str s), ("currency", .str c)]
    ∧ BalanceAmount.decode (.obj [("amount", .str s), ("currency", .str c)])
      = .ok ⟨s, c⟩
    ∧ BalanceAmount.encode ⟨s, c⟩
      = .obj [("amount", .str s), ("currency", .str c)] :=
  ⟨rfl, rfl, rfl, rfl⟩

/-- C8. Whenever the token-minting step fails (transport failure or a body
that does not decode as a token), Client::new propagates that very error
and returns no client value: there is no partially-authenticated client
reachable by the caller. -/
theorem C8_construction_fails_atomically (sid sk : String)
    (h : HttpOutcome) (e : ClientError)
    (hfail : ((⟨sid, sk, none⟩ : Client).create_token h).2 = .error e) :
    Client.new sid sk h = .error e
    ∧ ∀ c, Client.new sid sk h ≠ .ok c := by
  have hfail' : httpJson CreateTokenResponse.decode h = .error e := hfail
  constructor
  · simp only [Client.new, Client.create_token, hfail']
  · intro c hc
    simp only [Client.new, Client.create_token, hfail'] at hc
    exact Except.noConfusion hc

/-- C8 witness: the theorem applied at a concrete transport failure. -/
theorem C8_witness :
    Client.new "a" "b" .transportError = .error .transport :=
  (C8_construction_fails_atomically "a" "b" .transportError .transport rfl).1

/-- C9. The secrets are confined to the token-minting request body: that
body is exactly the two-field secret object (the sole point of use), the
token-minting result is independent of the secrets, the stored token
produced by construction is independent of the secrets, and every other
operation — request and result alike — is unchanged when both secrets are
replaced by arbitrary other strings, so no request, returned value or
error of those operations depends on or can contain the credentials. -/
theorem C9_credentials_confined (sid sk sid' sk' : String)
    (tok : Option CreateTokenResponse) (h : HttpOutcome)
    (iid red acc : String) (mhd : Int) (agr rf : Option String) :
    ((⟨sid, sk, tok⟩ : Client).create_token h).1.body
        = some (.obj [("secret_id", .str sid), ("secret_key", .str sk)])
    ∧ ((⟨sid, sk, tok⟩ : Client).create_token h).2
        = ((⟨sid', sk', tok⟩ : Client).create_token h).2
    ∧ (Client.new sid sk h).map (fun c => c.created_token)
        = (Client.new sid' sk' h).map (fun c => c.created_token)
    ∧ (⟨sid, sk, tok⟩ : Client).get_institutions h
        = (⟨sid', sk', tok⟩ : Client).get_institutions h
    ∧ (⟨sid, sk, tok⟩ : Client).create_end_user_agreement iid mhd h
        = (⟨sid', sk', tok⟩ : Client).create_end_user_agreement iid mhd h
    ∧ (⟨sid, sk, tok⟩ : Client).list_requisitions h
        = (⟨sid', sk', tok⟩ : Client).list_requisitions h
    ∧ (⟨sid, sk, tok⟩ : Client).create_requisition red iid agr rf h
        = (⟨sid', sk', tok⟩ : Client).create_requisition red iid agr rf h
    ∧ (⟨sid, sk, tok⟩ : Client).list_transactions acc h
        = (⟨sid', sk', tok⟩ : Client).list_transactions acc h
    ∧ (⟨sid, sk, tok⟩ : Client).list_balances acc h
        = (⟨sid', sk', tok⟩ : Client).list_balances acc h
    ∧ (⟨sid, sk, tok⟩ : Client).get_account_details acc h
        = (⟨sid', sk', tok⟩ : Client).get_account_details acc h := by
  refine ⟨rfl, rfl, ?_, ?_, ?_, ?_, ?_, ?_, ?_, ?_⟩
  · unfold Client.new Client.create_token
    cases httpJson CreateTokenResponse.decode h <;> rfl
  all_goals cases tok <;> rfl

/-- C10. Decoding a list-transactions response object that lacks the
transactions key entirely succeeds, the serde default supplying empty
booked and pending lists. -/
theorem C10_missing_transactions_key (fs : List (String × Json))
    (hnone : fs.lookup "transactions" = none) :
    ListTransactionsResponse.decode (.obj fs) = .ok ⟨⟨[], []⟩⟩ := by
  simp [ListTransactionsResponse.decode, defField, Json.getField, hnone]

/-- C10 witness: the empty JSON object. -/
theorem C10_witness :
    ListTransactionsResponse.decode (.obj []) = .ok ⟨⟨[], []⟩⟩ :=
  C10_missing_transactions_key [] rfl

end GoCardless
